import Mathlib

/-!
Shallow embedding of the GeneratePrevisibines previsbine-builder pipeline
(stage state machine, prerequisite validation, external tool invocation
contract, and archive-merge semantics), with theorems checking the
natural-language specification against the code.

External effects (process spawns, filesystem probes, log contents) are
modelled as explicit oracle inputs; filesystem mutation performed by the
code itself (renames, deletions, file creation) is modelled as explicit
state passing over a list of existing paths.
-/

namespace Previsbine

/-- Rust `Result<α, String>`, as used throughout the repository. -/
inductive RResult (α : Type) where
  | ok (value : α)
  | err (msg : String)
deriving DecidableEq, Repr

/-- True exactly on the `ok` constructor. -/
def RResult.isOk {α : Type} : RResult α → Bool
  | .ok _ => true
  | .err _ => false

/-- `BuildMode` from `cli.rs`: clean, filtered, or xbox. -/
inductive BuildMode where
  | clean
  | filtered
  | xbox
deriving DecidableEq, Repr

/-- `BuildStage` from `cli.rs`: the nine pipeline stages, integer-valued 0..8. -/
inductive BuildStage where
  | verifyEnvironment
  | generatePrecombines
  | mergePrecombines
  | archivePrecombines
  | compressPsg
  | buildCdx
  | generatePrevis
  | mergePrevis
  | archiveVis
deriving DecidableEq, Repr

/-- The integer value of a stage (`BuildStage as i32` in `cli.rs`). -/
def BuildStage.val : BuildStage → Int
  | .verifyEnvironment => 0
  | .generatePrecombines => 1
  | .mergePrecombines => 2
  | .archivePrecombines => 3
  | .compressPsg => 4
  | .buildCdx => 5
  | .generatePrevis => 6
  | .mergePrevis => 7
  | .archiveVis => 8

/-- `BuildStage::from_i32` from `cli.rs`: stage lookup by integer value. -/
def BuildStage.from_i32 (value : Int) : Option BuildStage :=
  if value = 0 then some .verifyEnvironment
  else if value = 1 then some .generatePrecombines
  else if value = 2 then some .mergePrecombines
  else if value = 3 then some .archivePrecombines
  else if value = 4 then some .compressPsg
  else if value = 5 then some .buildCdx
  else if value = 6 then some .generatePrevis
  else if value = 7 then some .mergePrevis
  else if value = 8 then some .archiveVis
  else none

/-- The on-disk state inspected by `check_stage_prerequisites` in
`validation.rs`: existence of the plugin file, of `.nif` files in
`Data/meshes/precombined`, of the `<plugin> - Geometry.psg` file, of
`.uvd` files in `Data/vis`, and of `Data/Previs.esp`. -/
structure DataState where
  pluginExists : Bool
  precombinedHasNif : Bool
  psgExists : Bool
  visHasUvd : Bool
  previsEspExists : Bool
deriving DecidableEq, Repr

/-- `check_stage_prerequisites` from `validation.rs`, stage by stage as in
the source `match`. -/
def check_stage_prerequisites (stage : BuildStage) (st : DataState)
    (mode : BuildMode) (pluginNameExt : String) : RResult Unit :=
  match stage with
  | .verifyEnvironment => .ok ()
  | .generatePrecombines =>
      if !st.pluginExists then
        .err ("ERROR - Plugin " ++ pluginNameExt ++ " does not exist")
      else .ok ()
  | .mergePrecombines =>
      if !st.precombinedHasNif then
        .err "ERROR - No precombined meshes found. Run GeneratePrecombines first."
      else .ok ()
  | .archivePrecombines =>
      if !st.precombinedHasNif then
        .err "ERROR - No precombined meshes found. Run GeneratePrecombines first."
      else .ok ()
  | .compressPsg =>
      if mode ≠ .clean then
        .err "ERROR - CompressPSG is only available in Clean mode"
      else if !st.psgExists then
        .err "ERROR - No Geometry.psg file found. Run GeneratePrecombines first."
      else .ok ()
  | .buildCdx =>
      if mode ≠ .clean then
        .err "ERROR - BuildCDX is only available in Clean mode"
      else .ok ()
  | .generatePrevis =>
      if !st.pluginExists then
        .err ("ERROR - Plugin " ++ pluginNameExt ++ " does not exist")
      else .ok ()
  | .mergePrevis =>
      if !st.visHasUvd then
        .err "ERROR - No visibility files found. Run GeneratePreVisData first."
      else if !st.previsEspExists then
        .err "ERROR - Previs.esp not found. Run GeneratePreVisData first."
      else .ok ()
  | .archiveVis =>
      if !st.visHasUvd then
        .err "ERROR - No visibility files found. Run GeneratePreVisData first."
      else .ok ()

/-- The §4.2 prerequisite table, written from the spec words: what each
stage requires of the on-disk state. -/
def specPrereqTable (stage : BuildStage) (st : DataState) (mode : BuildMode) : Bool :=
  match stage with
  | .verifyEnvironment => true
  | .generatePrecombines => st.pluginExists
  | .mergePrecombines => st.precombinedHasNif
  | .archivePrecombines => st.precombinedHasNif
  | .compressPsg => (mode == .clean) && st.psgExists
  | .buildCdx => mode == .clean
  | .generatePrevis => st.pluginExists
  | .mergePrevis => st.visHasUvd && st.previsEspExists
  | .archiveVis => st.visHasUvd

/-- `determine_starting_stage` from `builder.rs`, restricted to the branch
where the caller supplied an explicit `--start-stage` integer: the stage is
looked up with `from_i32` (failure is an invalid-stage error) and its
prerequisites are then checked. -/
def determine_starting_stage_explicit (stage : Int) (st : DataState)
    (mode : BuildMode) (pluginNameExt : String) : RResult BuildStage :=
  match BuildStage.from_i32 stage with
  | some s =>
      match check_stage_prerequisites s st mode pluginNameExt with
      | .ok _ => .ok s
      | .err e => .err e
  | none => .err ("ERROR - Invalid stage number: " ++ toString stage)

/-! ### Content-tool invocation (`tools/creation_kit.rs`, `run_creation_kit`)

The filesystem of the game directory is a list of existing relative paths
(files under `Data` carry a `Data/` prefix). The external process is an
oracle: `launch` is `none` on spawn failure and `some code` for an exit
code, `produced` lists the paths the process (and the mod-manager
virtualization layer) created, and `ckLogReadOk` says whether reading the
tool's own log back succeeds. Renames and deletions done by the function
itself are modelled as total list updates. -/

/-- The fixed set of auxiliary DLLs disabled around every Creation Kit call. -/
def dlls_to_disable : List String :=
  ["d3d11.dll", "d3d10.dll", "d3d9.dll", "dxgi.dll", "enbimgui.dll",
   "d3dcompiler_46e.dll"]

/-- The sentinel name a disabled DLL is renamed to. -/
def disabledName (dll : String) : String := dll ++ "-PJMdisabled"

/-- A filesystem rename: the old path disappears, the new path appears. -/
def renameFile (fs : List String) (old new : String) : List String :=
  fs.erase old ++ [new]

/-- The disable loop at the top of `run_creation_kit`: each present DLL is
renamed to its sentinel name. -/
def disableDlls (fs : List String) : List String :=
  dlls_to_disable.foldl
    (fun acc dll => if dll ∈ acc then renameFile acc dll (disabledName dll) else acc)
    fs

/-- The re-enable loop at the bottom of `run_creation_kit`: each present
sentinel-named DLL is renamed back. -/
def enableDlls (fs : List String) : List String :=
  dlls_to_disable.foldl
    (fun acc dll =>
      if disabledName dll ∈ acc then renameFile acc (disabledName dll) dll else acc)
    fs

/-- Oracle inputs of one `run_creation_kit` call. -/
structure CkInput where
  fs : List String
  ckpeLogFile : Option String
  launch : Option Int
  produced : List String
  ckLogReadOk : Bool
deriving DecidableEq, Repr

/-- The failure paths of `run_creation_kit` (the error taxonomy of §4.3). -/
inductive CkError where
  | launchFailure
  | logReadFailure
  | outputMissing (exitCode : Int)
deriving DecidableEq, Repr

/-- Result of one `run_creation_kit` call: `none` for `Ok(())`, the final
filesystem, and whether the non-zero-exit warning was logged. -/
structure CkOutcome where
  result : Option CkError
  fs : List String
  warned : Bool
deriving DecidableEq, Repr

/-- Filesystem after the DLL-disable loop. -/
def ckFsDisabled (inp : CkInput) : List String := disableDlls inp.fs

/-- Filesystem after the stale tool-log deletion. -/
def ckFsStaleLogRemoved (inp : CkInput) : List String :=
  match inp.ckpeLogFile with
  | some l =>
      if l ∈ ckFsDisabled inp then (ckFsDisabled inp).erase l else ckFsDisabled inp
  | none => ckFsDisabled inp

/-- Filesystem after the external process (and settle delay) ran. -/
def ckFsAfterProcess (inp : CkInput) : List String :=
  ckFsStaleLogRemoved inp ++ inp.produced

/-- Whether appending the tool's own log to the run log fails: the log
exists but reading it errors. -/
def ckLogReadFails (inp : CkInput) : Bool :=
  match inp.ckpeLogFile with
  | some l => decide (l ∈ ckFsAfterProcess inp) && !inp.ckLogReadOk
  | none => false

/-- `run_creation_kit` from `tools/creation_kit.rs`: disable DLLs, delete
the stale tool log, spawn the process, append the tool log, assert the
declared output file exists in `Data`, warn on a non-zero exit code with
the output present, and re-enable the DLLs. Error returns leave the
filesystem as it is at the point of the `return`. -/
def run_creation_kit (outputFile : String) (inp : CkInput) : CkOutcome :=
  match inp.launch with
  | none => ⟨some .launchFailure, ckFsStaleLogRemoved inp, false⟩
  | some exitCode =>
      if ckLogReadFails inp then
        ⟨some .logReadFailure, ckFsAfterProcess inp, false⟩
      else if ("Data/" ++ outputFile) ∈ ckFsAfterProcess inp then
        ⟨none, enableDlls (ckFsAfterProcess inp), decide (exitCode ≠ 0)⟩
      else
        ⟨some (.outputMissing exitCode), ckFsAfterProcess inp, false⟩

/-! ### Scripting-tool invocation (`tools/xedit.rs`, `run_xedit_script`)
and its two call sites in `builder.rs`. -/

/-- Substring containment, the log classifier used by the code
(`str::contains`). -/
def containsStr (s pat : String) : Bool := decide (pat.toList <:+: s.toList)

/-- Oracle inputs of one `run_xedit_script` call: whether the spawn
succeeds, whether the unattended log exists after the wait, and its text. -/
structure XeditInput where
  spawnOk : Bool
  logExists : Bool
  logContent : String
deriving DecidableEq, Repr

/-- `run_xedit_script` from `tools/xedit.rs`: spawn the editor, wait for
the unattended log, kill the process, append the log, and require the
`Completed: ` marker in the log text. -/
def run_xedit_script (script : String) (inp : XeditInput) : RResult Unit :=
  if !inp.spawnOk then .err "Error starting xEdit"
  else if inp.logExists then
    if !(containsStr inp.logContent "Completed: ") then
      .err ("ERROR - FO4Edit script " ++ script ++ " failed")
    else .ok ()
  else .err ("ERROR - FO4Edit script " ++ script ++ " did not produce a log file")

/-- `stage_merge_precombines` from `builder.rs`: run the merge script,
then re-read the unattended log and warn (second component) if it contains
`Error: `. -/
def stage_merge_precombines (inp : XeditInput) : RResult Unit × Bool :=
  match run_xedit_script "Batch_FO4MergeCombinedObjectsAndCheck.pas" inp with
  | .err e => (.err e, false)
  | .ok _ => (.ok (), inp.logExists && containsStr inp.logContent "Error: ")

/-- `stage_merge_previs` from `builder.rs`: run the merge script, then
re-read the unattended log and hard-fail unless it contains
`Completed: No Errors.`. -/
def stage_merge_previs (inp : XeditInput) : RResult Unit :=
  match run_xedit_script "Batch_FO4MergePreVisAndAutoUpdateRefr.pas" inp with
  | .err e => .err e
  | .ok _ =>
      if inp.logExists then
        if !(containsStr inp.logContent "Completed: No Errors.") then
          .err "ERROR - Merge Previs script did not complete successfully"
        else .ok ()
      else .err "ERROR - Merge Previs script did not produce a log file"

/-! ### Stage sequencer (`builder.rs`, `PrevisbineBuilder::run`)

The chain of `if start_stage_val <= stage as i32 { self.stage_...()? }`
guards, with every stage body abstracted to an oracle result, preceded by
the environment and plugin checks and followed by the cleanup call. The
first component of the result records which stages of the chain executed,
in order. -/

/-- One guarded stage of the chain: skipped when a previous stage already
failed or when the guard is false, otherwise executed and recorded. -/
def runStageStep (results : BuildStage → RResult Unit)
    (st : List BuildStage × RResult Unit) (cond : Bool) (stage : BuildStage) :
    List BuildStage × RResult Unit :=
  match st.2 with
  | .err _ => st
  | .ok _ => if cond then (st.1 ++ [stage], results stage) else st

/-- The stage chain of `PrevisbineBuilder::run` (lines 124-157): the eight
guarded stage calls in source order, with `CompressPsg` and `BuildCdx`
under the `mode == Clean` test. -/
def builder_stages (mode : BuildMode) (startVal : Int)
    (results : BuildStage → RResult Unit) : List BuildStage × RResult Unit :=
  let st0 : List BuildStage × RResult Unit := ([], .ok ())
  let st1 := runStageStep results st0 (decide (startVal ≤ 1)) .generatePrecombines
  let st2 := runStageStep results st1 (decide (startVal ≤ 2)) .mergePrecombines
  let st3 := runStageStep results st2 (decide (startVal ≤ 3)) .archivePrecombines
  let st5 :=
    if mode = .clean then
      let st4 := runStageStep results st3 (decide (startVal ≤ 4)) .compressPsg
      runStageStep results st4 (decide (startVal ≤ 5)) .buildCdx
    else st3
  let st6 := runStageStep results st5 (decide (startVal ≤ 6)) .generatePrevis
  let st7 := runStageStep results st6 (decide (startVal ≤ 7)) .mergePrevis
  runStageStep results st7 (decide (startVal ≤ 8)) .archiveVis

/-- Oracle results of the non-stage calls made by `PrevisbineBuilder::run`:
environment verification, the plugin check, the per-stage bodies and the
final cleanup. -/
structure RunOracle where
  verifyEnv : RResult Unit
  checkPlugin : RResult Unit
  stageResult : BuildStage → RResult Unit
  cleanup : RResult Unit

/-- `PrevisbineBuilder::run` after the starting stage is known:
`verify_environment`, `check_plugin`, the stage chain, then
`self.cleanup()?` — each early-returning its error. -/
def builder_run (mode : BuildMode) (startVal : Int) (o : RunOracle) :
    List BuildStage × RResult Unit :=
  match o.verifyEnv with
  | .err e => ([], .err e)
  | .ok _ =>
      match o.checkPlugin with
      | .err e => ([], .err e)
      | .ok _ =>
          let res := builder_stages mode startVal o.stageResult
          match res.2 with
          | .err e => (res.1, .err e)
          | .ok _ =>
              match o.cleanup with
              | .err e => (res.1, .err e)
              | .ok _ => (res.1, .ok ())

/-- The eight pipeline stages after environment verification, in ascending
integer order. -/
def allStagesAsc : List BuildStage :=
  [.generatePrecombines, .mergePrecombines, .archivePrecombines, .compressPsg,
   .buildCdx, .generatePrevis, .mergePrevis, .archiveVis]

/-- The two stages that are meaningful only in Clean mode. -/
def cleanOnly (s : BuildStage) : Bool := s == .compressPsg || s == .buildCdx

/-- The stages in scope for a run, written from the spec words: integer
value at least the start stage, and the Clean-only stages only in Clean
mode, in ascending order. -/
def scopeList (mode : BuildMode) (startVal : Int) : List BuildStage :=
  allStagesAsc.filter
    (fun s => decide (startVal ≤ s.val) && (!cleanOnly s || mode == .clean))

/-- Sequential execution of a list of stages: run each in order, recording
it, and stop at the first failure. -/
def stepFold (results : BuildStage → RResult Unit)
    (st : List BuildStage × RResult Unit) :
    List BuildStage → List BuildStage × RResult Unit
  | [] => st
  | s :: rest => stepFold results (runStageStep results st true s) rest

/-! ### Archive merge (`tools/archive.rs`, `add_to_archive`) -/

/-- The externally visible operations `add_to_archive` can take, in order:
a `run_archive` pack of a folder list, an `extract_archive`, the deletion
of the existing archive file, and the removal of the extracted
precombined directory. -/
inductive ArchiveOp where
  | pack (folders : String)
  | extract
  | deleteArchive
  | removePrecombinedDir
deriving DecidableEq, Repr

/-- Oracle results for the external archiver calls. -/
structure ArchiveOracle where
  packResult : String → RResult Unit
  extractResult : RResult Unit
  deleteOk : Bool

/-- The operation trace of a plain `run_archive` pack call. -/
def run_archive_ops (folders : String) : List ArchiveOp := [.pack folders]

/-- `add_to_archive` from `tools/archive.rs`: if the archive file does not
exist yet, pack the folder directly; otherwise extract the existing
archive, delete it, and repack — together with the extracted precombined
meshes when those are present. Returns the operation trace and the
result. -/
def add_to_archive (archiveExists hasPrecombined : Bool) (folder : String)
    (o : ArchiveOracle) : List ArchiveOp × RResult Unit :=
  if !archiveExists then
    (run_archive_ops folder, o.packResult folder)
  else
    match o.extractResult with
    | .err e => ([.extract], .err e)
    | .ok _ =>
        if !o.deleteOk then
          ([.extract], .err "Failed to remove existing archive")
        else if hasPrecombined then
          match o.packResult ("meshes\\precombined," ++ folder) with
          | .err e =>
              ([.extract, .deleteArchive, .pack ("meshes\\precombined," ++ folder)],
               .err e)
          | .ok _ =>
              ([.extract, .deleteArchive, .pack ("meshes\\precombined," ++ folder),
                .removePrecombinedDir], .ok ())
        else
          ([.extract, .deleteArchive, .pack folder], o.packResult folder)

/-! ### `stage_generate_precombines` (`builder.rs`) -/

/-- Oracle inputs of `stage_generate_precombines`: the dirty-workspace
probes taken on entry, the Creation Kit call result, and the postcondition
probes taken after the call. -/
structure GenPrecombinesInput where
  precombinedHasNif : Bool
  visHasUvd : Bool
  ckResult : RResult Unit
  newPrecombinedHasNif : Bool
  handleArrayError : Bool
  psgCreated : Bool
deriving DecidableEq, Repr

/-- `stage_generate_precombines` from `builder.rs`: refuse a dirty
workspace, run the Creation Kit, then check the postconditions. The second
component records whether the Creation Kit was invoked. -/
def stage_generate_precombines (mode : BuildMode) (inp : GenPrecombinesInput) :
    RResult Unit × Bool :=
  if inp.precombinedHasNif then
    (.err "ERROR - Precombine directory (Data\\meshes\\precombined) not empty", false)
  else if inp.visHasUvd then
    (.err "ERROR - Previs directory (Data\\vis) not empty", false)
  else
    match inp.ckResult with
    | .err e => (.err e, true)
    | .ok _ =>
        if !inp.newPrecombinedHasNif then
          (.err "ERROR - GeneratePrecombined failed to create any Precombines", true)
        else if inp.handleArrayError then
          (.err "ERROR - GeneratePrecombined ran out of Reference Handles", true)
        else if mode = .clean && !inp.psgCreated then
          (.err "ERROR - GeneratePrecombined failed to create psg file", true)
        else (.ok (), true)

/-! ### `check_plugin` (`validation.rs`) -/

/-- Oracle inputs of `check_plugin`: existence of the archive, the plugin
file, and the `xPrevisPatch.esp` seed, the no-prompt flag, and the
operator's answer to the rename prompt. -/
structure CheckPluginInput where
  archiveExists : Bool
  pluginExists : Bool
  seedExists : Bool
  noPrompt : Bool
  promptAnswer : RResult Bool
deriving DecidableEq, Repr

/-- `check_plugin` from `validation.rs`. The second component records
whether `xPrevisPatch.esp` was renamed to the plugin name (the only
filesystem modification the function performs). -/
def check_plugin (pluginNameExt pluginArchive : String) (inp : CheckPluginInput) :
    RResult Unit × Bool :=
  if inp.archiveExists then
    (.err ("ERROR - This Plugin already has an Archive: " ++ pluginArchive), false)
  else if !inp.pluginExists then
    if !inp.seedExists then
      (.err "ERROR - Specified Plugin or xPrevisPatch does not exist", false)
    else if inp.noPrompt then
      (.err ("ERROR - Plugin " ++ pluginNameExt ++ " does not exist"), false)
    else
      match inp.promptAnswer with
      | .err e => (.err e, false)
      | .ok false => (.err "Aborted by user", false)
      | .ok true => (.ok (), true)
  else (.ok (), false)

/-! ### Plugin identity derivation (`builder.rs`, `PrevisbineBuilder::new`;
the same logic appears in `ui.rs`, `prompt_for_plugin_name`)

Strings are modelled as lists of characters. -/

/-- The recognized plugin extensions, lower-case. -/
def recognizedExts : List (List Char) := [".esp".toList, ".esm".toList, ".esl".toList]

/-- `str::to_lowercase`, character-wise (ASCII). -/
def lowerChars (cs : List Char) : List Char := cs.map Char.toLower

/-- Whether the lower-cased input ends with a recognized plugin extension
(the `ends_with` disjunction in the source). -/
def endsWithRecognizedExt (cs : List Char) : Bool :=
  recognizedExts.any (fun e => decide (e <:+ lowerChars cs))

/-- The characters strictly before the last occurrence of `c`, if any
(`rfind` followed by the `[0..i]` slice in the source). -/
def dropAfterLast (c : Char) : List Char → Option (List Char)
  | [] => none
  | x :: xs =>
      match dropAfterLast c xs with
      | some ys => some (x :: ys)
      | none => if x = c then some [] else none

/-- Plugin identity derivation from `PrevisbineBuilder::new`: an input
already carrying a recognized extension (case-insensitively) keeps it
verbatim and the base name is the input up to the last dot; otherwise the
base name is the input and `.esp` is appended for the file name. Returns
(base name, file name with extension). -/
def plugin_identity (plugin : List Char) : List Char × List Char :=
  if endsWithRecognizedExt plugin then
    (match dropAfterLast '.' plugin with
     | some base => base
     | none => plugin,
     plugin)
  else (plugin, plugin ++ ".esp".toList)

/-- The archive name derived from the base name
(`format!` of `plugin_name` and ` - Main.ba2`). -/
def plugin_archive_name (base : List Char) : List Char := base ++ " - Main.ba2".toList

/-! ## Helper lemmas -/

/-- A chain in a failed state ignores the rest of its stage list. -/
theorem stepFold_err (results : BuildStage → RResult Unit) (a : List BuildStage)
    (e : String) : ∀ l, stepFold results (a, .err e) l = (a, .err e) := by
  intro l
  induction l with
  | nil => rfl
  | cons s rest ih => simpa [stepFold, runStageStep] using ih

/-- A chain whose stages all succeed executes all of them in order. -/
theorem stepFold_all_ok (results : BuildStage → RResult Unit) :
    ∀ (l acc : List BuildStage), (∀ s ∈ l, results s = .ok ()) →
      stepFold results (acc, .ok ()) l = (acc ++ l, .ok ()) := by
  intro l
  induction l with
  | nil => intro acc _; simp [stepFold]
  | cons s rest ih =>
      intro acc h
      have hs : results s = .ok () := h s (by simp)
      show stepFold results (runStageStep results (acc, .ok ()) true s) rest = _
      have hstep : runStageStep results (acc, .ok ()) true s = (acc ++ [s], .ok ()) := by
        simp [runStageStep, hs]
      rw [hstep, ih (acc ++ [s]) (fun t ht => h t (by simp [ht]))]
      simp

/-- A chain stops at its first failing stage: everything before it ran,
the failing stage ran, nothing after it ran. -/
theorem stepFold_first_err (results : BuildStage → RResult Unit) :
    ∀ (pre : List BuildStage) (s : BuildStage) (post acc : List BuildStage)
      (e : String), (∀ t ∈ pre, results t = .ok ()) → results s = .err e →
      stepFold results (acc, .ok ()) (pre ++ s :: post) = (acc ++ pre ++ [s], .err e) := by
  intro pre
  induction pre with
  | nil =>
      intro s post acc e _ hs
      show stepFold results (runStageStep results (acc, .ok ()) true s) post = _
      have hstep : runStageStep results (acc, .ok ()) true s = (acc ++ [s], .err e) := by
        simp [runStageStep, hs]
      rw [hstep, stepFold_err]
      simp
  | cons t pre ih =>
      intro s post acc e hpre hs
      have ht : results t = .ok () := hpre t (by simp)
      show stepFold results (runStageStep results (acc, .ok ()) true t)
        (pre ++ s :: post) = _
      have hstep : runStageStep results (acc, .ok ()) true t = (acc ++ [t], .ok ()) := by
        simp [runStageStep, ht]
      rw [hstep, ih s post (acc ++ [t]) e (fun u hu => hpre u (by simp [hu])) hs]
      simp

/-- The stages a chain executes always form a prefix of its stage list. -/
theorem stepFold_exec_take (results : BuildStage → RResult Unit) :
    ∀ (l acc : List BuildStage) (r : RResult Unit),
      ∃ k, (stepFold results (acc, r) l).1 = acc ++ l.take k := by
  intro l
  induction l with
  | nil => intro acc r; exact ⟨0, by simp [stepFold]⟩
  | cons s rest ih =>
      intro acc r
      cases r with
      | err e => exact ⟨0, by rw [stepFold_err]; simp⟩
      | ok v =>
          cases v
          show ∃ k, (stepFold results (runStageStep results (acc, .ok ()) true s) rest).1 = _
          have hstep : runStageStep results (acc, .ok ()) true s = (acc ++ [s], results s) := by
            simp [runStageStep]
          rw [hstep]
          cases hres : results s with
          | err e =>
              refine ⟨1, ?_⟩
              rw [stepFold_err]
              simp
          | ok v2 =>
              cases v2
              rcases ih (acc ++ [s]) (.ok ()) with ⟨k, hk⟩
              refine ⟨k + 1, ?_⟩
              rw [hk]
              simp


/-! ## Claim theorems -/

/-- Claim C1: the claim says the DLLs renamed with the sentinel suffix are
renamed back on every exit path of `run_creation_kit`. The code re-enables
them only after the output-file check, so the error exits leave them
disabled: at a concrete input where `d3d11.dll` was present and the
declared output file is absent after a clean exit (code 0), the call
errors with the DLL still carrying its sentinel name; the same happens on
the process-launch-failure path. -/
theorem run_creation_kit_dll_left_disabled :
    (run_creation_kit "CombinedObjects.esp"
        ⟨["d3d11.dll"], none, some 0, [], true⟩).result
      = some (.outputMissing 0)
    ∧ "d3d11.dll-PJMdisabled" ∈ (run_creation_kit "CombinedObjects.esp"
        ⟨["d3d11.dll"], none, some 0, [], true⟩).fs
    ∧ "d3d11.dll" ∉ (run_creation_kit "CombinedObjects.esp"
        ⟨["d3d11.dll"], none, some 0, [], true⟩).fs
    ∧ (run_creation_kit "CombinedObjects.esp"
        ⟨["d3d11.dll"], none, none, [], true⟩).result = some .launchFailure
    ∧ "d3d11.dll-PJMdisabled" ∈ (run_creation_kit "CombinedObjects.esp"
        ⟨["d3d11.dll"], none, none, [], true⟩).fs := by decide

/-- Claim C3: whenever the process launched, an absent declared output file is a
hard failure regardless of the exit code (including 0), and a present
output file yields success with the warning flag set exactly when the exit
code is non-zero. -/
theorem run_creation_kit_output_contract
    (outputFile : String) (inp : CkInput) (code : Int)
    (hlaunch : inp.launch = some code) (hread : ckLogReadFails inp = false) :
    (("Data/" ++ outputFile) ∉ ckFsAfterProcess inp →
      (run_creation_kit outputFile inp).result = some (.outputMissing code))
    ∧ (("Data/" ++ outputFile) ∈ ckFsAfterProcess inp →
      (run_creation_kit outputFile inp).result = none
      ∧ (run_creation_kit outputFile inp).warned = decide (code ≠ 0)) := by
  constructor
  · intro hmem
    simp [run_creation_kit, hlaunch, hread, hmem]
  · intro hmem
    simp [run_creation_kit, hlaunch, hread, hmem]

/-- Witness for C3: with nothing produced, exit code 0 still fails with
the output-missing error; with the output produced and exit code 1, the
call succeeds and warns. -/
theorem run_creation_kit_output_contract_witness :
    (run_creation_kit "CombinedObjects.esp" ⟨[], none, some 0, [], true⟩).result
      = some (.outputMissing 0)
    ∧ (run_creation_kit "CombinedObjects.esp"
        ⟨[], none, some 1, ["Data/CombinedObjects.esp"], true⟩).result = none
    ∧ (run_creation_kit "CombinedObjects.esp"
        ⟨[], none, some 1, ["Data/CombinedObjects.esp"], true⟩).warned
      = decide ((1 : Int) ≠ 0) :=
  ⟨(run_creation_kit_output_contract "CombinedObjects.esp"
      ⟨[], none, some 0, [], true⟩ 0 rfl rfl).1 (by decide),
   (run_creation_kit_output_contract "CombinedObjects.esp"
      ⟨[], none, some 1, ["Data/CombinedObjects.esp"], true⟩ 1 rfl rfl).2
      (by decide) |>.1,
   (run_creation_kit_output_contract "CombinedObjects.esp"
      ⟨[], none, some 1, ["Data/CombinedObjects.esp"], true⟩ 1 rfl rfl).2
      (by decide) |>.2⟩

/-- Claim C10: when the plugin's archive already exists in the Data directory,
`check_plugin` returns the already-has-an-archive error without renaming
`xPrevisPatch.esp`, and the result is the same constant whatever the
plugin file, the seed artifact, the no-prompt flag, or the prompt answer
would have said — the function examines none of them on this path. -/
theorem check_plugin_archive_exists_guard (ext arc : String) (p s n : Bool)
    (a : RResult Bool) :
    check_plugin ext arc ⟨true, p, s, n, a⟩ =
      (.err ("ERROR - This Plugin already has an Archive: " ++ arc), false) := by
  simp [check_plugin]

/-- Claim C8: when the target archive file does not exist yet, `add_to_archive`
is exactly a direct `run_archive` pack of the named folder: the same
result, an operation trace of a single pack, and no extract, archive
deletion, or merge step. -/
theorem add_to_archive_fresh_is_direct_pack (hasPrecombined : Bool)
    (folder : String) (o : ArchiveOracle) :
    add_to_archive false hasPrecombined folder o
      = (run_archive_ops folder, o.packResult folder)
    ∧ (add_to_archive false hasPrecombined folder o).1 = [ArchiveOp.pack folder]
    ∧ ArchiveOp.extract ∉ (add_to_archive false hasPrecombined folder o).1
    ∧ ArchiveOp.deleteArchive ∉ (add_to_archive false hasPrecombined folder o).1
    ∧ ArchiveOp.removePrecombinedDir ∉ (add_to_archive false hasPrecombined folder o).1 := by
  simp [add_to_archive, run_archive_ops]

/-- Claim C9: the stage itself refuses a dirty workspace — a `.nif`
in the precombined directory or a `.uvd` in the vis directory on entry
yields an error with the Creation Kit never invoked — while the §4.2
prerequisite table for this stage passes whenever the plugin file exists,
dirty directories or not. -/
theorem stage_generate_precombines_refuses_dirty :
    (∀ (mode : BuildMode) (inp : GenPrecombinesInput),
       inp.precombinedHasNif = true ∨ inp.visHasUvd = true →
       (stage_generate_precombines mode inp).1.isOk = false
       ∧ (stage_generate_precombines mode inp).2 = false)
    ∧ (∀ (st : DataState) (mode : BuildMode) (ext : String),
       st.pluginExists = true →
       check_stage_prerequisites .generatePrecombines st mode ext = .ok ()) := by
  constructor
  · intro mode inp h
    rcases h with h | h
    · simp [stage_generate_precombines, h, RResult.isOk]
    · cases hp : inp.precombinedHasNif <;>
        simp [stage_generate_precombines, hp, h, RResult.isOk]
  · intro st mode ext h
    simp [check_stage_prerequisites, h]

/-- Witness for C9: a workspace with leftover precombined meshes makes the
stage fail before the Creation Kit runs, yet the prerequisite table for
the stage accepts the same dirty state as long as the plugin exists. -/
theorem stage_generate_precombines_refuses_dirty_witness :
    ((stage_generate_precombines .filtered
        ⟨true, false, .ok (), true, false, true⟩).1.isOk = false
     ∧ (stage_generate_precombines .filtered
        ⟨true, false, .ok (), true, false, true⟩).2 = false)
    ∧ check_stage_prerequisites .generatePrecombines
        ⟨true, true, false, true, false⟩ .filtered "p.esp" = .ok () :=
  ⟨stage_generate_precombines_refuses_dirty.1 .filtered
      ⟨true, false, .ok (), true, false, true⟩ (Or.inl rfl),
   stage_generate_precombines_refuses_dirty.2
      ⟨true, true, false, true, false⟩ .filtered "p.esp" rfl⟩

/-- Claim C2 counterexample: with every executed stage succeeding and the
cleanup step failing, the run's returned result is the cleanup error and
not success — `self.cleanup()?` propagates the cleanup failure as the
run's primary result, contrary to the claim. -/
theorem builder_run_cleanup_failure_masks_success :
    (builder_run .clean 1
        ⟨.ok (), .ok (), fun _ => .ok (), .err "Error removing file"⟩).2
      = .err "Error removing file"
    ∧ (builder_run .clean 1
        ⟨.ok (), .ok (), fun _ => .ok (), .err "Error removing file"⟩).2 ≠ .ok ()
    ∧ (builder_stages .clean 1 (fun _ => .ok ())).2 = .ok () := by decide

/-- Claim C2 as amended: when environment verification, the plugin check and
every executed stage succeed but cleanup fails, the cleanup error
propagates and becomes the run's returned failure. -/
theorem builder_run_cleanup_error_propagates
    (mode : BuildMode) (startVal : Int) (o : RunOracle) (e : String)
    (h1 : o.verifyEnv = .ok ()) (h2 : o.checkPlugin = .ok ())
    (h3 : (builder_stages mode startVal o.stageResult).2 = .ok ())
    (h4 : o.cleanup = .err e) :
    (builder_run mode startVal o).2 = .err e := by
  simp [builder_run, h1, h2, h3, h4]

/-- Witness for the amended C2. -/
theorem builder_run_cleanup_error_propagates_witness :
    (builder_run .clean 0
        ⟨.ok (), .ok (), fun _ => .ok (), .err "Error removing directory"⟩).2
      = .err "Error removing directory" :=
  builder_run_cleanup_error_propagates .clean 0
    ⟨.ok (), .ok (), fun _ => .ok (), .err "Error removing directory"⟩
    "Error removing directory" rfl rfl (by decide) rfl

/-- Claim C5 counterexample: an unattended log that carries the completion
marker but not the stronger `Completed: No Errors.` marker makes the
scripting-tool invocation itself succeed, yet `stage_merge_previs` — the
call site that checks the stronger marker — hard-fails rather than
warning. -/
theorem merge_previs_hard_fails_without_strong_marker :
    run_xedit_script "Batch_FO4MergePreVisAndAutoUpdateRefr.pas"
        ⟨true, true, "Completed: 5 Errors."⟩ = .ok ()
    ∧ stage_merge_previs ⟨true, true, "Completed: 5 Errors."⟩
        = .err "ERROR - Merge Previs script did not complete successfully" := by decide

/-- Claim C5 as amended: absence of the `Completed: ` marker is a hard failure
of every scripting-tool invocation; `stage_merge_precombines` additionally
scans for the `Error: ` marker and only warns (second component) without
failing; `stage_merge_previs` requires the stronger
`Completed: No Errors.` marker and hard-fails when it is absent. -/
theorem xedit_log_marker_contract :
    (∀ (script : String) (inp : XeditInput),
       inp.spawnOk = true → inp.logExists = true →
       containsStr inp.logContent "Completed: " = false →
       run_xedit_script script inp
         = .err ("ERROR - FO4Edit script " ++ script ++ " failed"))
    ∧ (∀ inp : XeditInput,
       inp.spawnOk = true → inp.logExists = true →
       containsStr inp.logContent "Completed: " = true →
       stage_merge_precombines inp = (.ok (), containsStr inp.logContent "Error: "))
    ∧ (∀ inp : XeditInput,
       inp.spawnOk = true → inp.logExists = true →
       containsStr inp.logContent "Completed: " = true →
       containsStr inp.logContent "Completed: No Errors." = false →
       stage_merge_previs inp
         = .err "ERROR - Merge Previs script did not complete successfully") := by
  refine ⟨?_, ?_, ?_⟩
  · intro script inp h1 h2 h3
    simp [run_xedit_script, h1, h2, h3]
  · intro inp h1 h2 h3
    simp [stage_merge_precombines, run_xedit_script, h1, h2, h3]
  · intro inp h1 h2 h3 h4
    simp [stage_merge_previs, run_xedit_script, h1, h2, h3, h4]

/-- Witness for the amended C5: a log without the completion marker fails
the invocation; a completed log with error lines only warns at the
merge-precombines call site; a completed log without the no-errors marker
hard-fails the merge-previs call site. -/
theorem xedit_log_marker_contract_witness :
    run_xedit_script "Batch_FO4MergeCombinedObjectsAndCheck.pas"
        ⟨true, true, "Exception: access violation"⟩
      = .err ("ERROR - FO4Edit script "
          ++ "Batch_FO4MergeCombinedObjectsAndCheck.pas" ++ " failed")
    ∧ stage_merge_precombines ⟨true, true, "Error: bad record. Completed: "⟩
        = (.ok (), containsStr "Error: bad record. Completed: " "Error: ")
    ∧ stage_merge_previs ⟨true, true, "Completed: 2 Errors"⟩
        = .err "ERROR - Merge Previs script did not complete successfully" :=
  ⟨xedit_log_marker_contract.1 "Batch_FO4MergeCombinedObjectsAndCheck.pas"
      ⟨true, true, "Exception: access violation"⟩ rfl rfl (by decide),
   xedit_log_marker_contract.2.1 ⟨true, true, "Error: bad record. Completed: "⟩
      rfl rfl (by decide),
   xedit_log_marker_contract.2.2 ⟨true, true, "Completed: 2 Errors"⟩
      rfl rfl (by decide) (by decide)⟩

/-- Appending `.esp` always yields a name ending in a recognized
extension. -/
theorem endsWithRecognizedExt_append_esp (p : List Char) :
    endsWithRecognizedExt (p ++ ".esp".toList) = true := by
  unfold endsWithRecognizedExt recognizedExts
  apply List.any_eq_true.mpr
  refine ⟨".esp".toList, by simp, ?_⟩
  rw [decide_eq_true_eq]
  unfold lowerChars
  rw [List.map_append]
  have h : List.map Char.toLower ".esp".toList = ".esp".toList := by decide
  rw [h]
  exact List.suffix_append _ _

/-- Claim C7 counterexample: for input `Foo.esp.esm` the derivation keeps the
inner extension in the base name — the base is `Foo.esp`, which contains
(indeed ends with) the recognized extension `.esp`, contradicting the
claimed invariant that the base never contains one. -/
theorem plugin_identity_base_keeps_inner_ext :
    plugin_identity "Foo.esp.esm".toList = ("Foo.esp".toList, "Foo.esp.esm".toList)
    ∧ (".esp".toList <:+: lowerChars (plugin_identity "Foo.esp.esm".toList).1) := by
  decide

/-- Claim C7 as amended: the three exemplary derivations hold, the derived file
name always ends with a recognized extension (recognized
case-insensitively, original casing preserved), and an input without a
recognized extension is kept as the base with `.esp` appended for the
file name; but the base name can still contain a recognized extension
when the input stacks extensions. -/
theorem plugin_identity_contract :
    plugin_identity "Foo".toList = ("Foo".toList, "Foo.esp".toList)
    ∧ plugin_identity "Foo.esm".toList = ("Foo".toList, "Foo.esm".toList)
    ∧ plugin_identity "Foo.ESP".toList = ("Foo".toList, "Foo.ESP".toList)
    ∧ (∀ p : List Char, endsWithRecognizedExt (plugin_identity p).2 = true)
    ∧ (∀ p : List Char, endsWithRecognizedExt p = false →
        plugin_identity p = (p, p ++ ".esp".toList)) := by
  refine ⟨by decide, by decide, by decide, ?_, ?_⟩
  · intro p
    by_cases h : endsWithRecognizedExt p
    · simp [plugin_identity, h]
    · simp only [plugin_identity, h, if_neg, Bool.false_eq_true,
        not_false_eq_true, if_false]
      exact endsWithRecognizedExt_append_esp p
  · intro p h
    simp [plugin_identity, h]

/-- Witness for the amended C7. -/
theorem plugin_identity_contract_witness :
    plugin_identity "Bar".toList = ("Bar".toList, "Bar".toList ++ ".esp".toList) :=
  plugin_identity_contract.2.2.2.2 "Bar".toList (by decide)

/-- Claim C4: for every stage, `check_stage_prerequisites` succeeds exactly when
the on-disk state satisfies the §4.2 table for that stage; and every
integer outside 0..8 supplied as an explicit start stage fails lookup
(`from_i32` gives `none`) and produces the invalid-stage error. -/
theorem check_stage_prerequisites_table :
    (∀ (stage : BuildStage) (st : DataState) (mode : BuildMode) (ext : String),
       (check_stage_prerequisites stage st mode ext).isOk
         = specPrereqTable stage st mode)
    ∧ (∀ n : Int, n < 0 ∨ 8 < n →
       BuildStage.from_i32 n = none
       ∧ ∀ (st : DataState) (mode : BuildMode) (ext : String),
           determine_starting_stage_explicit n st mode ext =
             .err ("ERROR - Invalid stage number: " ++ toString n)) := by
  constructor
  · intro stage st mode ext
    rcases st with ⟨p, pn, psg, v, pe⟩
    cases stage <;> cases mode <;> cases p <;> cases pn <;> cases psg <;>
      cases v <;> cases pe <;> rfl
  · intro n h
    have hf : BuildStage.from_i32 n = none := by
      unfold BuildStage.from_i32
      split_ifs <;> first | rfl | (exfalso; omega)
    refine ⟨hf, ?_⟩
    intro st mode ext
    simp [determine_starting_stage_explicit, hf]

/-- Witness for C4: stage number 9 fails lookup and yields the
invalid-stage error even on a fully populated filesystem. -/
theorem check_stage_prerequisites_table_witness :
    BuildStage.from_i32 9 = none
    ∧ determine_starting_stage_explicit 9 ⟨true, true, true, true, true⟩
        .clean "p.esp" = .err ("ERROR - Invalid stage number: " ++ toString (9 : Int)) :=
  ⟨(check_stage_prerequisites_table.2 9 (Or.inr (by decide))).1,
   (check_stage_prerequisites_table.2 9 (Or.inr (by decide))).2
      ⟨true, true, true, true, true⟩ .clean "p.esp"⟩

/-- The guarded if-chain of `PrevisbineBuilder::run` is sequential
execution of exactly the stages in scope: those of value at least the
start stage, with the Clean-only stages filtered out in other modes. -/
theorem builder_stages_eq_stepFold (mode : BuildMode) (start : BuildStage)
    (results : BuildStage → RResult Unit) :
    builder_stages mode start.val results
      = stepFold results ([], .ok ()) (scopeList mode start.val) := by
  cases mode <;> cases start <;> rfl

/-- Strict ascending order of the full stage list. -/
theorem allStagesAsc_sorted :
    allStagesAsc.Pairwise (fun a b : BuildStage => a.val < b.val) := by decide

/-- Claim C6: for every start stage, the run's stage chain equals sequential
execution of the in-scope stage list (value ≥ start, Clean-only stages
only in Clean mode); the executed stages are strictly ascending; if every
in-scope stage succeeds then exactly the in-scope stages execute and the
chain succeeds; the first failing stage stops the chain — the stages
before it and itself ran, nothing later; and a failing chain makes the
whole run return that stage's error. -/
theorem builder_stage_sequencing (mode : BuildMode) (start : BuildStage)
    (results : BuildStage → RResult Unit) :
    builder_stages mode start.val results
      = stepFold results ([], .ok ()) (scopeList mode start.val)
    ∧ (builder_stages mode start.val results).1.Pairwise
        (fun a b : BuildStage => a.val < b.val)
    ∧ ((∀ s ∈ scopeList mode start.val, results s = .ok ()) →
        builder_stages mode start.val results = (scopeList mode start.val, .ok ()))
    ∧ (∀ (pre : List BuildStage) (s : BuildStage) (post : List BuildStage)
        (e : String), scopeList mode start.val = pre ++ s :: post →
        (∀ t ∈ pre, results t = .ok ()) → results s = .err e →
        builder_stages mode start.val results = (pre ++ [s], .err e))
    ∧ (∀ (o : RunOracle) (e : String), o.verifyEnv = .ok () →
        o.checkPlugin = .ok () → o.stageResult = results →
        (builder_stages mode start.val results).2 = .err e →
        (builder_run mode start.val o).2 = .err e) := by
  have heq := builder_stages_eq_stepFold mode start results
  refine ⟨heq, ?_, ?_, ?_, ?_⟩
  · rw [heq]
    rcases stepFold_exec_take results (scopeList mode start.val) [] (.ok ())
      with ⟨k, hk⟩
    rw [hk]
    simp only [List.nil_append]
    exact allStagesAsc_sorted.sublist
      ((List.take_sublist _ _).trans (List.filter_sublist _))
  · intro h
    rw [heq, stepFold_all_ok results _ [] h]
    simp
  · intro pre s post e hscope hpre hs
    rw [heq, hscope, stepFold_first_err results pre s post [] e hpre hs]
    simp
  · intro o e h1 h2 h3 h4
    rw [← h3] at h4
    simp [builder_run, h1, h2, h4]

/-- Witness for C6: in Filtered mode starting at MergePrecombines the
chain runs exactly the in-scope stages and succeeds; in Clean mode
starting at GeneratePrecombines a failure in MergePrecombines stops the
chain after exactly the first two stages. -/
theorem builder_stage_sequencing_witness :
    builder_stages .filtered BuildStage.mergePrecombines.val (fun _ => .ok ())
      = (scopeList .filtered BuildStage.mergePrecombines.val, .ok ())
    ∧ builder_stages .clean BuildStage.generatePrecombines.val
        (fun s => if s = .mergePrecombines then .err "merge failed" else .ok ())
      = ([.generatePrecombines, .mergePrecombines], .err "merge failed") :=
  ⟨(builder_stage_sequencing .filtered .mergePrecombines
      (fun _ => .ok ())).2.2.1 (by decide),
   (builder_stage_sequencing .clean .generatePrecombines
      (fun s => if s = .mergePrecombines then .err "merge failed" else .ok ())).2.2.2.1
      [.generatePrecombines] .mergePrecombines
      [.archivePrecombines, .compressPsg, .buildCdx, .generatePrevis,
       .mergePrevis, .archiveVis]
      "merge failed" (by decide) (by decide) (by decide)⟩

end Previsbine
